import Mathlib

/-!
# Matter CO2 / air-quality sensor: sampling loop and I2C bus adapter

A shallow embedding of

* `main/app_main.cpp`, function `sensor_update_task` (the periodic sampling and
  attribute-publishing loop with its classification ladder), and
* `main/drivers/sensirion_i2c_hal.c` (the bus transaction adapter:
  `sensirion_i2c_hal_init`, `_free`, `_read`, `_write`, `_sleep_usec`).

Calls into the framework and the I2C driver are recorded, in program order, as
events of a trace; what those calls answer (error codes, handles, buffer contents)
is a parameter of the embedded function.
-/

namespace AirQualitySensor

/-! ## `app_main.cpp` : the sampling and publishing loop -/

/-- Cluster identifiers used by `sensor_update_task` (`AirQuality::Id` and
`CarbonDioxideConcentrationMeasurement::Id`); the numeric values live in the
framework headers and are kept symbolic. -/
inductive ClusterId where
  | AirQuality
  | CarbonDioxideConcentrationMeasurement
  deriving DecidableEq, Repr

/-- Attribute identifiers used by `sensor_update_task`:
`AirQuality::Attributes::AirQuality::Id` and
`CarbonDioxideConcentrationMeasurement::Attributes::MeasuredValue::Id`. -/
inductive AttributeId where
  | AirQuality_AirQuality
  | CarbonDioxideConcentrationMeasurement_MeasuredValue
  deriving DecidableEq, Repr

/-- The two kinds of `esp_matter_attr_val_t` the task builds. The payload of
`nullable_float` is the number the binary32 value denotes; the task only ever
converts a `uint16_t`, and every integer below `2^24` is a binary32 value, so the
conversion is exact and the payload is that integer. -/
inductive esp_matter_attr_val_t where
  | enum8 (v : Nat)
  | nullable_float (v : Nat)
  deriving DecidableEq, Repr

/-- `esp_matter_enum8(uint8_t)`, called with an `int8_t` argument: the argument is
converted to `uint8_t`. -/
def esp_matter_enum8 (v : Int) : esp_matter_attr_val_t :=
  .enum8 (v % 256).toNat

/-- `esp_matter_nullable_float(float)`, called with a `uint16_t` argument. -/
def esp_matter_nullable_float (v : Fin 65536) : esp_matter_attr_val_t :=
  .nullable_float v.val

/-- What one call `scd4x_read_measurement(&co2_measurement, &temp_measurement,
&humidity_measurement)` leaves behind: its `int16_t` return code (`0` is success)
and the contents of the three local variables after the call. The sensor driver
is not part of the embedded sources, so this is an input of the cycle. -/
structure scd4x_read_measurement_result where
  error : Int
  co2_measurement : Fin 65536
  temp_measurement : Int
  humidity_measurement : Int
  deriving DecidableEq, Repr

/-- Calls made by `sensor_update_task`, in program order. -/
inductive TaskEvent where
  | ESP_LOGI (fmt : String)
  | vTaskDelay (ticks : Nat)
  | LockChipStack
  | scd4x_read_measurement (error : Int)
  | update (endpoint_id : Nat) (cluster_id : ClusterId) (attribute_id : AttributeId)
      (val : esp_matter_attr_val_t)
  | UnlockChipStack
  deriving DecidableEq, Repr

/-- The `if / else if` ladder of `sensor_update_task` (lines 210-227):
`air_quality_value_int` as a function of `co2_value`. -/
def air_quality_value_int (co2_value : Nat) : Int :=
  if co2_value ≤ 1000 then 1
  else if co2_value ≤ 2500 then 2
  else if co2_value ≤ 5000 then 3
  else 4

/-- One iteration of the `while (true)` body of `sensor_update_task`
(lines 185-239). The return code of `scd4x_read_measurement` is discarded by the
source: nothing in the body branches on it. -/
def sensor_update_cycle (portTICK_PERIOD_MS : Nat) (endpoint_id : Nat)
    (r : scd4x_read_measurement_result) : List TaskEvent :=
  let co2_value : Fin 65536 := r.co2_measurement
  let air_qual_val := esp_matter_enum8 (air_quality_value_int co2_value.val)
  let co2_val := esp_matter_nullable_float r.co2_measurement
  [ .LockChipStack,
    .scd4x_read_measurement r.error,
    .ESP_LOGI "MEASUREMENTS: %d, %lu, %lu",
    .ESP_LOGI "CO2: %d",
    .update endpoint_id .AirQuality .AirQuality_AirQuality air_qual_val,
    .update endpoint_id .CarbonDioxideConcentrationMeasurement
      .CarbonDioxideConcentrationMeasurement_MeasuredValue co2_val,
    .UnlockChipStack,
    .vTaskDelay (5000 / portTICK_PERIOD_MS) ]

/-- The first `n` iterations of the `while (true)` loop; `reads i` is what the
sensor read of iteration `i` leaves behind. -/
def sensor_update_loop (portTICK_PERIOD_MS : Nat) (endpoint_id : Nat)
    (reads : Nat → scd4x_read_measurement_result) : Nat → List TaskEvent
  | 0 => []
  | n + 1 =>
    sensor_update_loop portTICK_PERIOD_MS endpoint_id reads n ++
      sensor_update_cycle portTICK_PERIOD_MS endpoint_id (reads n)

/-- The trace of `sensor_update_task` up to the end of its `n`-th iteration: the
warm-up log and delay, then `n` cycles. `qual_endpoint` is the global read once on
entry. The loop has no exit, so the whole run is the limit of these prefixes. -/
def sensor_update_task (portTICK_PERIOD_MS : Nat) (qual_endpoint : Nat)
    (reads : Nat → scd4x_read_measurement_result) (n : Nat) : List TaskEvent :=
  let endpoint_id := qual_endpoint
  [ .ESP_LOGI "Waiting for Matter stack to initialize...",
    .vTaskDelay (5000 / portTICK_PERIOD_MS) ] ++
    sensor_update_loop portTICK_PERIOD_MS endpoint_id reads n

/-- The attribute-store updates of a trace, in order. -/
def updates : List TaskEvent → List (Nat × ClusterId × AttributeId × esp_matter_attr_val_t)
  | [] => []
  | .update e c a v :: es => (e, c, a, v) :: updates es
  | _ :: es => updates es

/-- Number of `UnlockChipStack` calls in a trace. -/
def unlockCount (es : List TaskEvent) : Nat :=
  es.count .UnlockChipStack

/-- Number of `LockChipStack` calls in a trace. -/
def lockCount (es : List TaskEvent) : Nat :=
  es.count .LockChipStack

/-! ## `drivers/sensirion_i2c_hal.c` : the bus transaction adapter -/

/-- The success code of `esp_err_t`. -/
def ESP_OK : Int := 0

/-- `#define I2C_MASTER_SCL_IO 18`. -/
def I2C_MASTER_SCL_IO : Nat := 18

/-- `#define I2C_MASTER_SDA_IO 19`. -/
def I2C_MASTER_SDA_IO : Nat := 19

/-- `#define I2C_MASTER_FREQ_HZ 100000`. -/
def I2C_MASTER_FREQ_HZ : Nat := 100000

/-- `#define I2C_MASTER_TIMEOUT_MS 1000`. -/
def I2C_MASTER_TIMEOUT_MS : Nat := 1000

/-- Calls made by the adapter to the I2C driver and to the logger, in program
order. Handles are opaque non-null pointers, named by a number. Each driver call
carries the `esp_err_t` it answered. -/
inductive HalEvent where
  | ESP_LOGW (fmt : String)
  | ESP_LOGE (fmt : String)
  | ESP_LOGI (fmt : String)
  | i2c_new_master_bus (scl_io_num sda_io_num glitch_ignore_cnt : Nat)
      (enable_internal_pullup : Bool) (err : Int)
  | i2c_del_master_bus (bus_handle : Nat)
  | i2c_master_bus_add_device (bus_handle : Nat) (device_address scl_speed_hz : Nat)
      (err : Int) (dev_handle : Nat)
  | i2c_master_receive (dev_handle : Nat) (count : Nat) (timeout_ms : Nat) (err : Int)
  | i2c_master_transmit (dev_handle : Nat) (data : List Nat) (count : Nat)
      (timeout_ms : Nat) (err : Int)
  | i2c_master_bus_rm_device (dev_handle : Nat)
  deriving DecidableEq, Repr

/-- The adapter state: the file-scope `static i2c_master_bus_handle_t
i2c_bus_handle` (`none` is `NULL`) together with the trace of calls made so far,
oldest first. -/
structure Hal where
  i2c_bus_handle : Option Nat
  trace : List HalEvent
  deriving DecidableEq, Repr

/-- The state at program start: `i2c_bus_handle = NULL`, nothing called yet. -/
def Hal.start : Hal :=
  { i2c_bus_handle := none, trace := [] }

/-- Answer of `i2c_new_master_bus(&i2c_bus_config, &i2c_bus_handle)`: the error
code and the content of `i2c_bus_handle` once the call is back (the driver is
handed the address of the variable). -/
structure i2c_new_master_bus_result where
  err : Int
  ret_bus_handle : Option Nat
  deriving DecidableEq, Repr

/-- Answer of `i2c_master_bus_add_device(i2c_bus_handle, &dev_cfg, &dev_handle)`. -/
structure i2c_master_bus_add_device_result where
  err : Int
  dev_handle : Nat
  deriving DecidableEq, Repr

/-- Answer of `i2c_master_receive(dev_handle, data, count, timeout)`: the error
code and the content of the caller buffer `data` after the call. -/
structure i2c_master_receive_result where
  err : Int
  data : List Nat
  deriving DecidableEq, Repr

/-- `sensirion_i2c_hal_init` (lines 70-92). -/
def sensirion_i2c_hal_init (r : i2c_new_master_bus_result) (s : Hal) : Hal :=
  match s.i2c_bus_handle with
  | some _ =>
    { s with trace := s.trace ++ [.ESP_LOGW "I2C already initialized"] }
  | none =>
    let called := s.trace ++
      [.i2c_new_master_bus I2C_MASTER_SCL_IO I2C_MASTER_SDA_IO 7 true r.err]
    if r.err ≠ ESP_OK then
      { i2c_bus_handle := none,
        trace := called ++ [.ESP_LOGE "Failed to initialize I2C master bus: %s"] }
    else
      { i2c_bus_handle := r.ret_bus_handle,
        trace := called ++ [.ESP_LOGI "I2C master bus initialized successfully"] }

/-- `sensirion_i2c_hal_free` (lines 97-103). -/
def sensirion_i2c_hal_free (s : Hal) : Hal :=
  match s.i2c_bus_handle with
  | some bus =>
    { i2c_bus_handle := none,
      trace := s.trace ++ [.i2c_del_master_bus bus, .ESP_LOGI "I2C master bus deleted"] }
  | none => s

/-- `sensirion_i2c_hal_read` (lines 115-147). Returns the `int8_t` result, the
content of the buffer `data` on return, and the new adapter state. -/
def sensirion_i2c_hal_read (add : i2c_master_bus_add_device_result)
    (rx : i2c_master_receive_result) (address : Nat) (data : List Nat) (count : Nat)
    (s : Hal) : Int × List Nat × Hal :=
  match s.i2c_bus_handle with
  | none =>
    (-1, data, { s with trace := s.trace ++ [.ESP_LOGE "I2C not initialized"] })
  | some bus =>
    let added := s.trace ++
      [.i2c_master_bus_add_device bus address I2C_MASTER_FREQ_HZ add.err add.dev_handle]
    if add.err ≠ ESP_OK then
      (-1, data, { s with trace := added ++ [.ESP_LOGE "Failed to add device: %s"] })
    else
      let done := added ++
        [.i2c_master_receive add.dev_handle count I2C_MASTER_TIMEOUT_MS rx.err,
         .i2c_master_bus_rm_device add.dev_handle]
      if rx.err ≠ ESP_OK then
        (-1, rx.data, { s with trace := done ++ [.ESP_LOGE "I2C read failed: %s"] })
      else
        (0, rx.data, { s with trace := done })

/-- `sensirion_i2c_hal_write` (lines 160-193); `tx_err` is the answer of
`i2c_master_transmit`. Returns the `int8_t` result and the new adapter state. -/
def sensirion_i2c_hal_write (add : i2c_master_bus_add_device_result) (tx_err : Int)
    (address : Nat) (data : List Nat) (count : Nat) (s : Hal) : Int × Hal :=
  match s.i2c_bus_handle with
  | none =>
    (-1, { s with trace := s.trace ++ [.ESP_LOGE "I2C not initialized"] })
  | some bus =>
    let added := s.trace ++
      [.i2c_master_bus_add_device bus address I2C_MASTER_FREQ_HZ add.err add.dev_handle]
    if add.err ≠ ESP_OK then
      (-1, { s with trace := added ++ [.ESP_LOGE "Failed to add device: %s"] })
    else
      let done := added ++
        [.i2c_master_transmit add.dev_handle data count I2C_MASTER_TIMEOUT_MS tx_err,
         .i2c_master_bus_rm_device add.dev_handle]
      if tx_err ≠ ESP_OK then
        (-1, { s with trace := done ++ [.ESP_LOGE "I2C write failed: %s"] })
      else
        (0, { s with trace := done })

/-- `sensirion_i2c_hal_sleep_usec` (lines 203-210): the tick count handed to
`vTaskDelay`. `portTICK_PERIOD_MS` is the scheduler constant (a `uint32_t`, in
milliseconds); the product and the quotient are computed in 32 bits, and the
result is `none` when the divisor is zero (the division is then undefined). -/
def sensirion_i2c_hal_sleep_usec (portTICK_PERIOD_MS : Nat) (useconds : Nat) : Option Nat :=
  let divisor := (1000 * portTICK_PERIOD_MS) % 2 ^ 32
  if divisor = 0 then none
  else
    let ticks := (useconds % 2 ^ 32) / divisor
    some (if ticks = 0 then 1 else ticks)

/-- Whether an event is a call into the I2C driver (as opposed to a log line). -/
def HalEvent.isBusOp : HalEvent → Bool
  | .ESP_LOGW _ => false
  | .ESP_LOGE _ => false
  | .ESP_LOGI _ => false
  | _ => true

/-- Device sessions open at the end of a trace, given those open at its start: a
successful `i2c_master_bus_add_device` opens one, `i2c_master_bus_rm_device`
closes it. -/
def open_sessions : List Nat → List HalEvent → List Nat
  | open_, [] => open_
  | open_, .i2c_master_bus_add_device _ _ _ err dev :: es =>
    open_sessions (if err = ESP_OK then dev :: open_ else open_) es
  | open_, .i2c_master_bus_rm_device dev :: es => open_sessions (open_.erase dev) es
  | open_, _ :: es => open_sessions open_ es

/-- Number of bus creations attempted in a trace. -/
def new_bus_calls : List HalEvent → Nat
  | [] => 0
  | .i2c_new_master_bus _ _ _ _ _ :: es => new_bus_calls es + 1
  | _ :: es => new_bus_calls es

/-- Number of bus deletions in a trace. -/
def del_bus_calls : List HalEvent → Nat
  | [] => 0
  | .i2c_del_master_bus _ :: es => del_bus_calls es + 1
  | _ :: es => del_bus_calls es

/-- Number of `i2c_master_bus_rm_device` calls on `dev` in a trace. -/
def rm_device_calls (dev : Nat) (es : List HalEvent) : Nat :=
  es.count (.i2c_master_bus_rm_device dev)

/-- Lock discipline of a task trace, scanned from a state where the stack lock is
held or not: `LockChipStack` needs the lock free, `UnlockChipStack` needs it held,
the sensor read and every attribute-store update need it held, `vTaskDelay` needs
it free. The result is the lock state at the end, or `none` at the first breach. -/
def lock_discipline : Bool → List TaskEvent → Option Bool
  | held, [] => some held
  | held, .LockChipStack :: es => if held then none else lock_discipline true es
  | held, .UnlockChipStack :: es => if held then lock_discipline false es else none
  | held, .scd4x_read_measurement _ :: es => if held then lock_discipline held es else none
  | held, .update _ _ _ _ :: es => if held then lock_discipline held es else none
  | held, .vTaskDelay _ :: es => if held then none else lock_discipline held es
  | held, .ESP_LOGI _ :: es => lock_discipline held es

/-! ## Helper lemmas -/

theorem lock_discipline_append (held : Bool) (xs ys : List TaskEvent) :
    lock_discipline held (xs ++ ys) =
      (lock_discipline held xs).bind (fun h => lock_discipline h ys) := by
  induction xs generalizing held with
  | nil => simp [lock_discipline]
  | cons x xs ih =>
    cases x <;> cases held <;> simp [lock_discipline, ih]

theorem lock_discipline_cycle (P ep : Nat) (r : scd4x_read_measurement_result) :
    lock_discipline false (sensor_update_cycle P ep r) = some false := by
  simp [sensor_update_cycle, lock_discipline]

theorem lock_discipline_loop (P ep : Nat) (reads : Nat → scd4x_read_measurement_result)
    (n : Nat) : lock_discipline false (sensor_update_loop P ep reads n) = some false := by
  induction n with
  | zero => simp [sensor_update_loop, lock_discipline]
  | succ n ih =>
    simp [sensor_update_loop, lock_discipline_append, ih, lock_discipline_cycle]

theorem open_sessions_append (o : List Nat) (xs ys : List HalEvent) :
    open_sessions o (xs ++ ys) = open_sessions (open_sessions o xs) ys := by
  induction xs generalizing o with
  | nil => simp [open_sessions]
  | cons x xs ih => cases x <;> simp [open_sessions, ih]

theorem new_bus_calls_append (xs ys : List HalEvent) :
    new_bus_calls (xs ++ ys) = new_bus_calls xs + new_bus_calls ys := by
  induction xs with
  | nil => simp [new_bus_calls]
  | cons x xs ih =>
    cases x <;> simp [new_bus_calls, ih]
    omega

theorem del_bus_calls_append (xs ys : List HalEvent) :
    del_bus_calls (xs ++ ys) = del_bus_calls xs + del_bus_calls ys := by
  induction xs with
  | nil => simp [del_bus_calls]
  | cons x xs ih =>
    cases x <;> simp [del_bus_calls, ih]
    omega

/-! ## The classification ladder -/

/-- C1: for every `co2_ppm` (in particular every unsigned 16-bit one) the value
computed by the ladder of `sensor_update_task` is Good (1) exactly when
`co2_ppm <= 1000`, Fair (2) exactly when `1000 < co2_ppm <= 2500`, Moderate (3)
exactly when `2500 < co2_ppm <= 5000`, Poor (4) exactly when `co2_ppm > 5000`;
the six boundary values land as stated, and Unknown (0) is never the result. -/
theorem air_quality_value_int_thresholds (co2_ppm : Nat) :
    (air_quality_value_int co2_ppm = 1 ↔ co2_ppm ≤ 1000) ∧
    (air_quality_value_int co2_ppm = 2 ↔ 1000 < co2_ppm ∧ co2_ppm ≤ 2500) ∧
    (air_quality_value_int co2_ppm = 3 ↔ 2500 < co2_ppm ∧ co2_ppm ≤ 5000) ∧
    (air_quality_value_int co2_ppm = 4 ↔ 5000 < co2_ppm) ∧
    air_quality_value_int co2_ppm ≠ 0 ∧
    air_quality_value_int 1000 = 1 ∧ air_quality_value_int 1001 = 2 ∧
    air_quality_value_int 2500 = 2 ∧ air_quality_value_int 2501 = 3 ∧
    air_quality_value_int 5000 = 3 ∧ air_quality_value_int 5001 = 4 := by
  refine ⟨?_, ?_, ?_, ?_, ?_, by decide, by decide, by decide, by decide, by decide,
    by decide⟩ <;>
  · unfold air_quality_value_int
    split_ifs <;> omega

/-! ## One cycle of the sampling loop -/

/-- C2, as stated, fails: a cycle whose sensor read returns the error `-1` still
issues attribute-store updates (here the pair made from the value `400` found in
`co2_measurement`), so the number of updates of that cycle is not zero. -/
theorem failed_read_cycle_publishes :
    ¬ ((-1 : Int) ≠ 0 →
        updates (sensor_update_cycle 1 1
          { error := -1, co2_measurement := 400, temp_measurement := 0,
            humidity_measurement := 0 }) = []) := by
  simp [sensor_update_cycle, updates]

/-- C2, amended: in every cycle in which the sensor read returns an error, the
body does not branch on the return code: it issues the same two attribute-store
updates as any other cycle (category, then CO2 value, made from the content of
`co2_measurement`), and the stack lock is released exactly once. -/
theorem failed_read_cycle_two_updates_one_unlock (portTICK_PERIOD_MS endpoint_id : Nat)
    (r : scd4x_read_measurement_result) (h : r.error ≠ 0) :
    (updates (sensor_update_cycle portTICK_PERIOD_MS endpoint_id r)).length = 2 ∧
    updates (sensor_update_cycle portTICK_PERIOD_MS endpoint_id r) =
      updates (sensor_update_cycle portTICK_PERIOD_MS endpoint_id { r with error := 0 }) ∧
    unlockCount (sensor_update_cycle portTICK_PERIOD_MS endpoint_id r) = 1 := by
  have _ := h
  simp [sensor_update_cycle, updates, unlockCount]

theorem failed_read_cycle_two_updates_one_unlock_witness :
    (updates (sensor_update_cycle 10 1
      { error := -1, co2_measurement := 400, temp_measurement := 0,
        humidity_measurement := 0 })).length = 2 ∧
    updates (sensor_update_cycle 10 1
      { error := -1, co2_measurement := 400, temp_measurement := 0,
        humidity_measurement := 0 }) =
      updates (sensor_update_cycle 10 1
        { error := 0, co2_measurement := 400, temp_measurement := 0,
          humidity_measurement := 0 }) ∧
    unlockCount (sensor_update_cycle 10 1
      { error := -1, co2_measurement := 400, temp_measurement := 0,
        humidity_measurement := 0 }) = 1 :=
  failed_read_cycle_two_updates_one_unlock 10 1
    { error := -1, co2_measurement := 400, temp_measurement := 0,
      humidity_measurement := 0 } (by decide)

/-- C3: in every cycle in which the sensor read succeeds with value `co2_ppm`,
exactly two attribute-store updates are issued, in this order and on the same
endpoint: first the AirQuality attribute of the air-quality cluster with the
category classified from `co2_ppm` (1 up to 1000, 2 up to 2500, 3 up to 5000,
4 above), then the MeasuredValue attribute of the CO2-concentration cluster with
the number `co2_ppm`; 400 publishes (Good, 400) and 9999 publishes (Poor, 9999). -/
theorem successful_cycle_publishes_category_then_co2 (portTICK_PERIOD_MS endpoint_id : Nat)
    (r : scd4x_read_measurement_result) (h : r.error = 0) :
    updates (sensor_update_cycle portTICK_PERIOD_MS endpoint_id r) =
      [ (endpoint_id, ClusterId.AirQuality, AttributeId.AirQuality_AirQuality,
          esp_matter_attr_val_t.enum8
            (if r.co2_measurement.val ≤ 1000 then 1
             else if r.co2_measurement.val ≤ 2500 then 2
             else if r.co2_measurement.val ≤ 5000 then 3 else 4)),
        (endpoint_id, ClusterId.CarbonDioxideConcentrationMeasurement,
          AttributeId.CarbonDioxideConcentrationMeasurement_MeasuredValue,
          esp_matter_attr_val_t.nullable_float r.co2_measurement.val) ] ∧
    (updates (sensor_update_cycle portTICK_PERIOD_MS endpoint_id
        { r with co2_measurement := 400 })).map (fun u => u.2.2.2) =
      [esp_matter_attr_val_t.enum8 1, esp_matter_attr_val_t.nullable_float 400] ∧
    (updates (sensor_update_cycle portTICK_PERIOD_MS endpoint_id
        { r with co2_measurement := 9999 })).map (fun u => u.2.2.2) =
      [esp_matter_attr_val_t.enum8 4, esp_matter_attr_val_t.nullable_float 9999] := by
  have _ := h
  refine ⟨?_, rfl, rfl⟩
  simp only [sensor_update_cycle, updates, esp_matter_enum8, esp_matter_nullable_float,
    air_quality_value_int]
  split_ifs <;> rfl

theorem successful_cycle_publishes_category_then_co2_witness :
    (0 : Int) = 0 ∧
    updates (sensor_update_cycle 10 1
      { error := 0, co2_measurement := 400, temp_measurement := 21000,
        humidity_measurement := 45000 }) =
      [ (1, ClusterId.AirQuality, AttributeId.AirQuality_AirQuality,
          esp_matter_attr_val_t.enum8 1),
        (1, ClusterId.CarbonDioxideConcentrationMeasurement,
          AttributeId.CarbonDioxideConcentrationMeasurement_MeasuredValue,
          esp_matter_attr_val_t.nullable_float 400) ] ∧
    (updates (sensor_update_cycle 10 1
      { error := 0, co2_measurement := 9999, temp_measurement := 21000,
        humidity_measurement := 45000 })).map (fun u => u.2.2.2) =
      [esp_matter_attr_val_t.enum8 4, esp_matter_attr_val_t.nullable_float 9999] :=
  ⟨rfl,
   (successful_cycle_publishes_category_then_co2 10 1
    { error := 0, co2_measurement := 400, temp_measurement := 21000,
      humidity_measurement := 45000 } rfl).1,
   (successful_cycle_publishes_category_then_co2 10 1
    { error := 0, co2_measurement := 400, temp_measurement := 21000,
      humidity_measurement := 45000 } rfl).2.2⟩

/-- C9: in every cycle of `sensor_update_task`, whatever the sensor read returns,
the stack lock is acquired exactly once and released exactly once; the cycle is
the acquisition, then a middle part holding the sensor read and all the updates
of the cycle and no lock, unlock or delay call, then the release, then the
cycle-period delay. Over any number of cycles of the task the lock discipline is
kept: the read and every attribute-store update happen with the lock held, every
delay with the lock released. -/
theorem cycle_lock_brackets_read_and_updates (portTICK_PERIOD_MS qual_endpoint : Nat)
    (reads : Nat → scd4x_read_measurement_result) (n : Nat)
    (r : scd4x_read_measurement_result) :
    lockCount (sensor_update_cycle portTICK_PERIOD_MS qual_endpoint r) = 1 ∧
    unlockCount (sensor_update_cycle portTICK_PERIOD_MS qual_endpoint r) = 1 ∧
    (∃ mid : List TaskEvent,
      sensor_update_cycle portTICK_PERIOD_MS qual_endpoint r =
        TaskEvent.LockChipStack :: mid ++
          [TaskEvent.UnlockChipStack, TaskEvent.vTaskDelay (5000 / portTICK_PERIOD_MS)] ∧
      TaskEvent.scd4x_read_measurement r.error ∈ mid ∧
      updates mid = updates (sensor_update_cycle portTICK_PERIOD_MS qual_endpoint r) ∧
      lockCount mid = 0 ∧ unlockCount mid = 0 ∧
      ∀ t, TaskEvent.vTaskDelay t ∉ mid) ∧
    lock_discipline false (sensor_update_cycle portTICK_PERIOD_MS qual_endpoint r) =
      some false ∧
    lock_discipline false (sensor_update_task portTICK_PERIOD_MS qual_endpoint reads n) =
      some false := by
  refine ⟨by simp [sensor_update_cycle, lockCount], by simp [sensor_update_cycle, unlockCount],
    ?_, lock_discipline_cycle _ _ _, ?_⟩
  · refine ⟨((sensor_update_cycle portTICK_PERIOD_MS qual_endpoint r).drop 1).take 5,
      by simp [sensor_update_cycle], ?_⟩
    simp [sensor_update_cycle, updates, lockCount, unlockCount]
  · simp [sensor_update_task, lock_discipline_append, lock_discipline,
      lock_discipline_loop]

/-! ## The bus transaction adapter -/

/-- C4: for every address, buffer and count, `sensirion_i2c_hal_read` and
`sensirion_i2c_hal_write` called while no bus handle exists (at program start,
after `sensirion_i2c_hal_free`, or in any state without a handle) return the
error `-1` after logging "I2C not initialized" and perform no bus operation: the
trace gains that one log line only, no device session is added, the buffer is
untouched and the handle stays absent. -/
theorem read_write_without_bus_handle (add : i2c_master_bus_add_device_result)
    (rx : i2c_master_receive_result) (tx_err : Int) (address count : Nat)
    (data : List Nat) (tr : List HalEvent) (o : List Nat) (s : Hal) :
    sensirion_i2c_hal_read add rx address data count ⟨none, tr⟩ =
      (-1, data, ⟨none, tr ++ [HalEvent.ESP_LOGE "I2C not initialized"]⟩) ∧
    sensirion_i2c_hal_write add tx_err address data count ⟨none, tr⟩ =
      (-1, ⟨none, tr ++ [HalEvent.ESP_LOGE "I2C not initialized"]⟩) ∧
    ((sensirion_i2c_hal_read add rx address data count ⟨none, tr⟩).2.2.trace.filter
        HalEvent.isBusOp = tr.filter HalEvent.isBusOp) ∧
    ((sensirion_i2c_hal_write add tx_err address data count ⟨none, tr⟩).2.trace.filter
        HalEvent.isBusOp = tr.filter HalEvent.isBusOp) ∧
    open_sessions o (sensirion_i2c_hal_read add rx address data count ⟨none, tr⟩).2.2.trace =
      open_sessions o tr ∧
    open_sessions o (sensirion_i2c_hal_write add tx_err address data count ⟨none, tr⟩).2.trace =
      open_sessions o tr ∧
    sensirion_i2c_hal_read add rx address data count Hal.start =
      (-1, data, ⟨none, [HalEvent.ESP_LOGE "I2C not initialized"]⟩) ∧
    sensirion_i2c_hal_write add tx_err address data count Hal.start =
      (-1, ⟨none, [HalEvent.ESP_LOGE "I2C not initialized"]⟩) ∧
    sensirion_i2c_hal_read add rx address data count (sensirion_i2c_hal_free s) =
      (-1, data, ⟨none, (sensirion_i2c_hal_free s).trace ++
        [HalEvent.ESP_LOGE "I2C not initialized"]⟩) ∧
    sensirion_i2c_hal_write add tx_err address data count (sensirion_i2c_hal_free s) =
      (-1, ⟨none, (sensirion_i2c_hal_free s).trace ++
        [HalEvent.ESP_LOGE "I2C not initialized"]⟩) := by
  refine ⟨rfl, rfl, ?_, ?_, ?_, ?_, rfl, rfl, ?_, ?_⟩
  · simp [sensirion_i2c_hal_read, HalEvent.isBusOp]
  · simp [sensirion_i2c_hal_write, HalEvent.isBusOp]
  · simp [sensirion_i2c_hal_read, open_sessions_append, open_sessions]
  · simp [sensirion_i2c_hal_write, open_sessions_append, open_sessions]
  · obtain ⟨h, t⟩ := s
    cases h <;> simp [sensirion_i2c_hal_free, sensirion_i2c_hal_read]
  · obtain ⟨h, t⟩ := s
    cases h <;> simp [sensirion_i2c_hal_free, sensirion_i2c_hal_write]

/-- C5 fails on the code: `sensirion_i2c_hal_sleep_usec` divides with truncation.
With a 10 ms tick, 15000 microseconds become 1 tick, which is 10000 microseconds;
with a 1 ms tick, 1999 microseconds become 1 tick, which is 1000 microseconds. In
both cases the requested delay (ticks times tick period) is shorter than asked. -/
theorem sleep_usec_rounds_down :
    sensirion_i2c_hal_sleep_usec 10 15000 = some 1 ∧ 1 * (1000 * 10) < 15000 ∧
    sensirion_i2c_hal_sleep_usec 1 1999 = some 1 ∧ 1 * (1000 * 1) < 1999 := by
  decide

/-- C6: for every requested duration `useconds`, whenever the divisor
`1000 * portTICK_PERIOD_MS` is not zero (any tick period from 1 ms up),
`sensirion_i2c_hal_sleep_usec` does call the delay primitive and the tick count it
passes is at least 1, never 0; for the durations 0 and 1 it is exactly 1. -/
theorem sleep_usec_at_least_one_tick (portTICK_PERIOD_MS useconds : Nat)
    (hdiv : (1000 * portTICK_PERIOD_MS) % 2 ^ 32 ≠ 0) :
    (∃ ticks, sensirion_i2c_hal_sleep_usec portTICK_PERIOD_MS useconds = some ticks ∧
      1 ≤ ticks) ∧
    sensirion_i2c_hal_sleep_usec portTICK_PERIOD_MS 0 = some 1 ∧
    sensirion_i2c_hal_sleep_usec portTICK_PERIOD_MS 1 = some 1 ∧
    sensirion_i2c_hal_sleep_usec portTICK_PERIOD_MS useconds ≠ some 0 := by
  have hpos : 0 < (1000 * portTICK_PERIOD_MS) % 2 ^ 32 := Nat.pos_of_ne_zero hdiv
  have key : ∀ u, ∃ ticks, sensirion_i2c_hal_sleep_usec portTICK_PERIOD_MS u = some ticks ∧
      1 ≤ ticks ∧ (u % 2 ^ 32 < (1000 * portTICK_PERIOD_MS) % 2 ^ 32 → ticks = 1) := by
    intro u
    unfold sensirion_i2c_hal_sleep_usec
    simp only [hdiv, if_false]
    refine ⟨_, rfl, ?_, ?_⟩
    · split_ifs with h0
      · exact le_refl 1
      · exact Nat.pos_of_ne_zero h0
    · intro hlt
      rw [Nat.div_eq_of_lt hlt]
      rfl
  refine ⟨?_, ?_, ?_, ?_⟩
  · obtain ⟨t, ht, hge, _⟩ := key useconds
    exact ⟨t, ht, hge⟩
  · obtain ⟨t, ht, _, h1⟩ := key 0
    rw [ht, h1 (by simpa using hpos)]
  · unfold sensirion_i2c_hal_sleep_usec
    simp only [hdiv, if_false]
    have h1 : (1 % 2 ^ 32 : Nat) = 1 := by norm_num
    rw [h1]
    rcases Nat.lt_or_ge 1 ((1000 * portTICK_PERIOD_MS) % 2 ^ 32) with hlt | hge
    · rw [Nat.div_eq_of_lt hlt]; rfl
    · have h1eq : (1000 * portTICK_PERIOD_MS) % 2 ^ 32 = 1 := by omega
      rw [h1eq]; rfl
  · obtain ⟨t, ht, hge, _⟩ := key useconds
    rw [ht]
    intro h
    have : t = 0 := by simpa using h
    omega

theorem sleep_usec_at_least_one_tick_witness :
    (∃ ticks, sensirion_i2c_hal_sleep_usec 10 500 = some ticks ∧ 1 ≤ ticks) ∧
    sensirion_i2c_hal_sleep_usec 10 0 = some 1 ∧
    sensirion_i2c_hal_sleep_usec 10 1 = some 1 ∧
    sensirion_i2c_hal_sleep_usec 10 500 ≠ some 0 :=
  sleep_usec_at_least_one_tick 10 500 (by decide)

/-- C7: when a bus handle is already live, `sensirion_i2c_hal_init` only logs the
warning "I2C already initialized": it does not call `i2c_new_master_bus`, logs no
error, and leaves the handle as it was. Hence two successive calls, the first of
which creates the bus `bus`, end with the handle `bus`, with one bus creation in
the trace and no deletion, whatever the driver would have answered the second
time. -/
theorem init_when_live_only_warns (r r2 : i2c_new_master_bus_result) (bus : Nat)
    (tr : List HalEvent) :
    sensirion_i2c_hal_init r ⟨some bus, tr⟩ =
      ⟨some bus, tr ++ [HalEvent.ESP_LOGW "I2C already initialized"]⟩ ∧
    new_bus_calls (sensirion_i2c_hal_init r ⟨some bus, tr⟩).trace = new_bus_calls tr ∧
    (∀ fmt, (sensirion_i2c_hal_init r ⟨some bus, tr⟩).trace.count (HalEvent.ESP_LOGE fmt) =
      tr.count (HalEvent.ESP_LOGE fmt)) ∧
    sensirion_i2c_hal_init r2 (sensirion_i2c_hal_init ⟨ESP_OK, some bus⟩ ⟨none, tr⟩) =
      ⟨some bus, (sensirion_i2c_hal_init ⟨ESP_OK, some bus⟩ ⟨none, tr⟩).trace ++
        [HalEvent.ESP_LOGW "I2C already initialized"]⟩ ∧
    (sensirion_i2c_hal_init ⟨ESP_OK, some bus⟩ ⟨none, tr⟩).i2c_bus_handle = some bus ∧
    new_bus_calls
      (sensirion_i2c_hal_init r2 (sensirion_i2c_hal_init ⟨ESP_OK, some bus⟩ ⟨none, tr⟩)).trace =
      new_bus_calls tr + 1 ∧
    (sensirion_i2c_hal_init r2 (sensirion_i2c_hal_init ⟨ESP_OK, some bus⟩ Hal.start)).trace =
      [ HalEvent.i2c_new_master_bus 18 19 7 true 0,
        HalEvent.ESP_LOGI "I2C master bus initialized successfully",
        HalEvent.ESP_LOGW "I2C already initialized" ] := by
  refine ⟨rfl, ?_, ?_, rfl, rfl, ?_, rfl⟩
  · simp [sensirion_i2c_hal_init, new_bus_calls_append, new_bus_calls]
  · intro fmt
    simp [sensirion_i2c_hal_init, List.count_append]
  · simp [sensirion_i2c_hal_init, new_bus_calls_append, new_bus_calls, ESP_OK]

/-- C8: in every `sensirion_i2c_hal_read` or `sensirion_i2c_hal_write` call in
which a device session was opened (a bus handle exists and
`i2c_master_bus_add_device` answered `ESP_OK` with the handle `dev`), the trace
gains the add, the transfer, one `i2c_master_bus_rm_device dev` and then at most
log lines, whether the transfer succeeded or not; the call returns 0 exactly when
the transfer answered `ESP_OK` and `-1` otherwise. After any read or write, in
any state and whatever the driver answers, the open device sessions are those
that were open before the call. -/
theorem read_write_close_their_session (bus dev address count : Nat) (data : List Nat)
    (rx : i2c_master_receive_result) (tx_err : Int) (tr : List HalEvent) (o : List Nat)
    (add : i2c_master_bus_add_device_result) (s : Hal) :
    (∃ logs, (sensirion_i2c_hal_read ⟨ESP_OK, dev⟩ rx address data count ⟨some bus, tr⟩).2.2 =
        ⟨some bus, tr ++
          [ HalEvent.i2c_master_bus_add_device bus address I2C_MASTER_FREQ_HZ ESP_OK dev,
            HalEvent.i2c_master_receive dev count I2C_MASTER_TIMEOUT_MS rx.err,
            HalEvent.i2c_master_bus_rm_device dev ] ++ logs⟩ ∧
      logs.filter HalEvent.isBusOp = []) ∧
    (∃ logs, (sensirion_i2c_hal_write ⟨ESP_OK, dev⟩ tx_err address data count ⟨some bus, tr⟩).2 =
        ⟨some bus, tr ++
          [ HalEvent.i2c_master_bus_add_device bus address I2C_MASTER_FREQ_HZ ESP_OK dev,
            HalEvent.i2c_master_transmit dev data count I2C_MASTER_TIMEOUT_MS tx_err,
            HalEvent.i2c_master_bus_rm_device dev ] ++ logs⟩ ∧
      logs.filter HalEvent.isBusOp = []) ∧
    rm_device_calls dev
        (sensirion_i2c_hal_read ⟨ESP_OK, dev⟩ rx address data count ⟨some bus, tr⟩).2.2.trace =
      rm_device_calls dev tr + 1 ∧
    rm_device_calls dev
        (sensirion_i2c_hal_write ⟨ESP_OK, dev⟩ tx_err address data count ⟨some bus, tr⟩).2.trace =
      rm_device_calls dev tr + 1 ∧
    (sensirion_i2c_hal_read ⟨ESP_OK, dev⟩ rx address data count ⟨some bus, tr⟩).1 =
      (if rx.err = ESP_OK then 0 else -1) ∧
    (sensirion_i2c_hal_write ⟨ESP_OK, dev⟩ tx_err address data count ⟨some bus, tr⟩).1 =
      (if tx_err = ESP_OK then 0 else -1) ∧
    open_sessions o (sensirion_i2c_hal_read add rx address data count s).2.2.trace =
      open_sessions o s.trace ∧
    open_sessions o (sensirion_i2c_hal_write add tx_err address data count s).2.trace =
      open_sessions o s.trace := by
  refine ⟨?_, ?_, ?_, ?_, ?_, ?_, ?_, ?_⟩
  · by_cases h : rx.err = ESP_OK
    · exact ⟨[], by simp [sensirion_i2c_hal_read, h], rfl⟩
    · exact ⟨[HalEvent.ESP_LOGE "I2C read failed: %s"],
        by simp [sensirion_i2c_hal_read, h], rfl⟩
  · by_cases h : tx_err = ESP_OK
    · exact ⟨[], by simp [sensirion_i2c_hal_write, h], rfl⟩
    · exact ⟨[HalEvent.ESP_LOGE "I2C write failed: %s"],
        by simp [sensirion_i2c_hal_write, h], rfl⟩
  · by_cases h : rx.err = ESP_OK <;>
      simp [sensirion_i2c_hal_read, rm_device_calls, h, List.count_append]
  · by_cases h : tx_err = ESP_OK <;>
      simp [sensirion_i2c_hal_write, rm_device_calls, h, List.count_append]
  · by_cases h : rx.err = ESP_OK <;> simp [sensirion_i2c_hal_read, h]
  · by_cases h : tx_err = ESP_OK <;> simp [sensirion_i2c_hal_write, h]
  · obtain ⟨hd, t⟩ := s
    cases hd with
    | none => simp [sensirion_i2c_hal_read, open_sessions_append, open_sessions]
    | some b =>
      by_cases ha : add.err = ESP_OK <;> by_cases h : rx.err = ESP_OK <;>
        simp [sensirion_i2c_hal_read, open_sessions_append, open_sessions, ha, h]
  · obtain ⟨hd, t⟩ := s
    cases hd with
    | none => simp [sensirion_i2c_hal_write, open_sessions_append, open_sessions]
    | some b =>
      by_cases ha : add.err = ESP_OK <;> by_cases h : tx_err = ESP_OK <;>
        simp [sensirion_i2c_hal_write, open_sessions_append, open_sessions, ha, h]

/-- C10: `sensirion_i2c_hal_free` deletes the bus and clears the handle when one
is present, and changes nothing when none is present; after it no handle is
present, and calling it twice gives the same state, hence the same number of bus
deletions (at most one more than before), as calling it once. -/
theorem free_releases_and_is_idempotent (bus : Nat) (tr : List HalEvent) (s : Hal) :
    sensirion_i2c_hal_free ⟨some bus, tr⟩ =
      ⟨none, tr ++ [HalEvent.i2c_del_master_bus bus,
        HalEvent.ESP_LOGI "I2C master bus deleted"]⟩ ∧
    del_bus_calls (sensirion_i2c_hal_free ⟨some bus, tr⟩).trace = del_bus_calls tr + 1 ∧
    sensirion_i2c_hal_free ⟨none, tr⟩ = ⟨none, tr⟩ ∧
    (sensirion_i2c_hal_free s).i2c_bus_handle = none ∧
    sensirion_i2c_hal_free (sensirion_i2c_hal_free s) = sensirion_i2c_hal_free s ∧
    del_bus_calls (sensirion_i2c_hal_free (sensirion_i2c_hal_free s)).trace =
      del_bus_calls (sensirion_i2c_hal_free s).trace ∧
    del_bus_calls (sensirion_i2c_hal_free s).trace ≤ del_bus_calls s.trace + 1 := by
  have hnone : (sensirion_i2c_hal_free s).i2c_bus_handle = none := by
    obtain ⟨hd, t⟩ := s
    cases hd <;> rfl
  have hidem : sensirion_i2c_hal_free (sensirion_i2c_hal_free s) = sensirion_i2c_hal_free s := by
    obtain ⟨hd, t⟩ := s
    cases hd <;> rfl
  refine ⟨rfl, ?_, rfl, hnone, hidem, by rw [hidem], ?_⟩
  · simp [sensirion_i2c_hal_free, del_bus_calls_append, del_bus_calls]
  · obtain ⟨hd, t⟩ := s
    cases hd <;> simp [sensirion_i2c_hal_free, del_bus_calls_append, del_bus_calls]

/-- C11: if `i2c_new_master_bus` fails inside `sensirion_i2c_hal_init`, the
adapter is left without a bus handle, whatever the failed call wrote to the
handle variable. A following read or write logs "I2C not initialized" and
returns `-1` without any driver call, and a following init calls
`i2c_new_master_bus` again instead of logging "I2C already initialized". -/
theorem failed_init_leaves_no_handle (r r2 : i2c_new_master_bus_result)
    (add : i2c_master_bus_add_device_result) (rx : i2c_master_receive_result)
    (tx_err : Int) (address count : Nat) (data : List Nat) (tr : List HalEvent)
    (hfail : r.err ≠ ESP_OK) :
    sensirion_i2c_hal_init r ⟨none, tr⟩ =
      ⟨none, tr ++ [HalEvent.i2c_new_master_bus 18 19 7 true r.err,
        HalEvent.ESP_LOGE "Failed to initialize I2C master bus: %s"]⟩ ∧
    sensirion_i2c_hal_read add rx address data count (sensirion_i2c_hal_init r ⟨none, tr⟩) =
      (-1, data, ⟨none, (sensirion_i2c_hal_init r ⟨none, tr⟩).trace ++
        [HalEvent.ESP_LOGE "I2C not initialized"]⟩) ∧
    sensirion_i2c_hal_write add tx_err address data count
        (sensirion_i2c_hal_init r ⟨none, tr⟩) =
      (-1, ⟨none, (sensirion_i2c_hal_init r ⟨none, tr⟩).trace ++
        [HalEvent.ESP_LOGE "I2C not initialized"]⟩) ∧
    ((sensirion_i2c_hal_read add rx address data count
        (sensirion_i2c_hal_init r ⟨none, tr⟩)).2.2.trace.filter HalEvent.isBusOp =
      (sensirion_i2c_hal_init r ⟨none, tr⟩).trace.filter HalEvent.isBusOp) ∧
    ((sensirion_i2c_hal_write add tx_err address data count
        (sensirion_i2c_hal_init r ⟨none, tr⟩)).2.trace.filter HalEvent.isBusOp =
      (sensirion_i2c_hal_init r ⟨none, tr⟩).trace.filter HalEvent.isBusOp) ∧
    new_bus_calls (sensirion_i2c_hal_init r2 (sensirion_i2c_hal_init r ⟨none, tr⟩)).trace =
      new_bus_calls (sensirion_i2c_hal_init r ⟨none, tr⟩).trace + 1 ∧
    (sensirion_i2c_hal_init r2 (sensirion_i2c_hal_init r ⟨none, tr⟩)).trace.count
        (HalEvent.ESP_LOGW "I2C already initialized") =
      tr.count (HalEvent.ESP_LOGW "I2C already initialized") := by
  have hinit : sensirion_i2c_hal_init r ⟨none, tr⟩ =
      ⟨none, tr ++ [HalEvent.i2c_new_master_bus 18 19 7 true r.err,
        HalEvent.ESP_LOGE "Failed to initialize I2C master bus: %s"]⟩ := by
    simp [sensirion_i2c_hal_init, hfail, I2C_MASTER_SCL_IO, I2C_MASTER_SDA_IO]
  rw [hinit]
  refine ⟨rfl, rfl, rfl, ?_, ?_, ?_, ?_⟩
  · simp [sensirion_i2c_hal_read, HalEvent.isBusOp]
  · simp [sensirion_i2c_hal_write, HalEvent.isBusOp]
  · by_cases h2 : r2.err = ESP_OK <;>
      simp [sensirion_i2c_hal_init, h2, new_bus_calls_append, new_bus_calls]
  · by_cases h2 : r2.err = ESP_OK <;>
      simp [sensirion_i2c_hal_init, h2, List.count_append]

theorem failed_init_leaves_no_handle_witness :
    sensirion_i2c_hal_init ⟨-1, some 7⟩ ⟨none, []⟩ =
      ⟨none, [HalEvent.i2c_new_master_bus 18 19 7 true (-1),
        HalEvent.ESP_LOGE "Failed to initialize I2C master bus: %s"]⟩ ∧
    sensirion_i2c_hal_read ⟨0, 3⟩ ⟨0, [1, 2]⟩ 98 [0, 0] 2
        (sensirion_i2c_hal_init ⟨-1, some 7⟩ ⟨none, []⟩) =
      (-1, [0, 0], ⟨none, (sensirion_i2c_hal_init ⟨-1, some 7⟩ ⟨none, []⟩).trace ++
        [HalEvent.ESP_LOGE "I2C not initialized"]⟩) ∧
    new_bus_calls (sensirion_i2c_hal_init ⟨0, some 8⟩
        (sensirion_i2c_hal_init ⟨-1, some 7⟩ ⟨none, []⟩)).trace =
      new_bus_calls (sensirion_i2c_hal_init ⟨-1, some 7⟩ ⟨none, []⟩).trace + 1 :=
  have h := failed_init_leaves_no_handle ⟨-1, some 7⟩ ⟨0, some 8⟩ ⟨0, 3⟩ ⟨0, [1, 2]⟩ 0 98 2
    [0, 0] [] (by decide)
  ⟨h.1, h.2.1, h.2.2.2.2.2.1⟩

/-- C12: the classification of `sensor_update_task` is monotone non-decreasing in
`co2_ppm`: for all values `a <= b` (in particular all unsigned 16-bit ones) the
category value computed for `a` is at most the one computed for `b`, and so is
the enum value published for it. -/
theorem air_quality_value_int_monotone (a b : Nat) (hab : a ≤ b) :
    air_quality_value_int a ≤ air_quality_value_int b ∧
    (air_quality_value_int a % 256).toNat ≤ (air_quality_value_int b % 256).toNat := by
  unfold air_quality_value_int
  split_ifs <;> omega

theorem air_quality_value_int_monotone_witness :
    air_quality_value_int 1000 ≤ air_quality_value_int 5001 ∧
    (air_quality_value_int 1000 % 256).toNat ≤ (air_quality_value_int 5001 % 256).toNat :=
  air_quality_value_int_monotone 1000 5001 (by decide)

end AirQualitySensor
